import Mathlib

/-!
Verification development for the atv2kodi firmware (src/src/main.cpp).

The file gives a shallow embedding of the pieces the specification talks
about: the NEC frame decoder, the button registry, the JSON-RPC context
queries, and the press/hold/repeat/release interaction state machine from
`loop`.  Machine integers (`unsigned long`, 32 bit on the target) are
modelled as `Nat` with explicit wrap-around subtraction where the code
subtracts timestamps.  Network calls are modelled by passing in the parsed
outcome of each request (`RpcResp`), so every query function is a pure
function of its response, exactly as the C++ function is a pure function of
the bytes it received.  Actions sent to Kodi are collected in a list instead
of being posted over HTTP.
-/

namespace Atv2Kodi

/-- 32-bit wrap-around subtraction: models `a - b` on `unsigned long`
(32 bit on the ESP8266) for arbitrary naturals. -/
def wsub32 (a b : Nat) : Nat := (a + (2 ^ 32 - b % 2 ^ 32)) % 2 ^ 32

/-! ### Timing constants (main.cpp lines 22-43) -/

def NEC_HDR_MARK_US : Nat := 9000
def NEC_HDR_SPACE_US : Nat := 4500
def NEC_BIT_MARK_US : Nat := 560
def NEC_ONE_SPACE_US : Nat := 1690
def NEC_ZERO_SPACE_US : Nat := 560
def NEC_TOLERANCE_US : Nat := 220

def HOLD_DELAY_MS : Nat := 250
def REPEAT_RATE_MS : Nat := 110
def RELEASE_TIMEOUT_MS : Nat := 220
def DOUBLECLICK_MS : Nat := 300

/-- `within` from main.cpp line 112: symmetric tolerance band check. -/
def within (v ref tol : Nat) : Bool := (ref ≤ v + tol) && (v ≤ ref + tol)

/-! ### NEC frame decoder (main.cpp lines 129-147)

The captured buffer prefix `sTimings[0..sTimingIdx)` is modelled as a
`List Nat`; `n` is `sTimingIdx`.  `necBits` is the `for (bit = 0..31)` loop
of `decodeNEC`, with `fuel` the number of remaining iterations. -/

def necBits (samples : List Nat) (n : Nat) : Nat → Nat → Nat → Nat → Nat
  | _, _, v, 0 => v
  | i, bit, v, fuel + 1 =>
    if n - 1 ≤ i then 0
    else if !(within (samples.getD i 0) NEC_BIT_MARK_US NEC_TOLERANCE_US) then 0
    else
      let sp := samples.getD (i + 1) 0
      if within sp NEC_ONE_SPACE_US NEC_TOLERANCE_US then
        necBits samples n (i + 2) (bit + 1) (v ||| (1 <<< bit)) fuel
      else if within sp NEC_ZERO_SPACE_US NEC_TOLERANCE_US then
        necBits samples n (i + 2) (bit + 1) v fuel
      else 0

/-- `decodeNEC` (main.cpp lines 130-147): returns 0 when no valid frame,
otherwise the 32-bit NEC value assembled least-significant bit first. -/
def decodeNEC (samples : List Nat) : Nat :=
  if samples.length < 34 then 0
  else if !(within (samples.getD 0 0) NEC_HDR_MARK_US NEC_TOLERANCE_US) then 0
  else if !(within (samples.getD 1 0) NEC_HDR_SPACE_US NEC_TOLERANCE_US) then 0
  else necBits samples samples.length 2 0 0 32

/-! ### Button registry (main.cpp lines 75-127) -/

structure IRButton where
  addr : Nat
  cmd : Nat
  name : String
  shortAction : Option String
  holdRepeat : Bool
deriving DecidableEq, Repr

/-- `kButtons` (main.cpp lines 83-91). -/
def kButtons : List IRButton :=
  [⟨0x03, 0x87, "MENU", some "back", false⟩,
   ⟨0x5F, 0x87, "PLAY_PAUSE", some "playpause", false⟩,
   ⟨0x0A, 0x87, "UP", some "up", true⟩,
   ⟨0x0C, 0x87, "DOWN", some "down", true⟩,
   ⟨0x09, 0x87, "LEFT", some "left", true⟩,
   ⟨0x06, 0x87, "RIGHT", some "right", true⟩,
   ⟨0x5C, 0x87, "SELECT", some "select", false⟩]

/-- `lookupButton` (main.cpp lines 122-127): first entry with matching
(address, command) pair, linear scan. -/
def lookupButton (addr cmd : Nat) : Option IRButton :=
  kButtons.find? (fun b => b.addr == addr && b.cmd == cmd)

/-! ### JSON-RPC context queries (main.cpp lines 208-282)

Each HTTP request either fails at transport level (`httpFail`: non-200
status or timeout, `httpPostJson` returned false), fails to parse
(`parseFail`: `deserializeJson` error), or yields a parsed payload. -/

inductive RpcResp (α : Type) where
  | httpFail
  | parseFail
  | ok (a : α)
deriving DecidableEq, Repr

/-- One entry of the `Player.GetActivePlayers` result array. -/
structure PlayerEntry where
  ptype : String
  playerid : Int
deriving DecidableEq, Repr

/-- Parsed `currentwindow` fields of a `GUI.GetProperties` reply; missing
fields already defaulted to `""` and `0` as the `|` operators do. -/
structure WindowInfo where
  wname : String
  wid : Int
deriving DecidableEq, Repr

/-- Parsed `currentwindow` and `currentcontrol` fields of the combined
`GUI.GetProperties` request issued by `isPureFullscreenPlayback`. -/
structure WinCtlInfo where
  wname : String
  wid : Int
  ctype : String
  clabel : String
deriving DecidableEq, Repr

/-- `getActivePlayerId` (main.cpp lines 208-228).  The payload is `none`
when the parsed `result` is not an array (`arr.isNull`), otherwise the
array entries.  Every failure mode yields -1. -/
def getActivePlayerId (r : RpcResp (Option (List PlayerEntry))) : Int :=
  match r with
  | .httpFail => -1
  | .parseFail => -1
  | .ok none => -1
  | .ok (some []) => -1
  | .ok (some (p :: ps)) =>
    match (p :: ps).find? (fun q => q.ptype == "video") with
    | some q => q.playerid
    | none => p.playerid

/-- `guiIsFullscreenVideo` (main.cpp lines 230-248). -/
def guiIsFullscreenVideo (r : RpcResp WindowInfo) : Bool :=
  match r with
  | .httpFail => false
  | .parseFail => false
  | .ok w => (w.wname == "fullscreenvideo") || (w.wid == 12005)

/-- `isPureFullscreenPlayback` (main.cpp lines 250-277): player active,
fullscreen-video window, and no focused control. -/
def isPureFullscreenPlayback (gap : RpcResp (Option (List PlayerEntry)))
    (r : RpcResp WinCtlInfo) : Bool :=
  if getActivePlayerId gap < 0 then false
  else
    match r with
    | .httpFail => false
    | .parseFail => false
    | .ok i =>
      let fs := (i.wname == "fullscreenvideo") || (i.wid == 12005)
      if !fs then false
      else
        let hasFocus := (i.ctype != "") || (i.clabel != "")
        !hasFocus

/-- `playerIsForeground` (main.cpp lines 279-282): player active and
fullscreen-video window; control focus is NOT consulted. -/
def playerIsForeground (gap : RpcResp (Option (List PlayerEntry)))
    (win : RpcResp WindowInfo) : Bool :=
  if getActivePlayerId gap < 0 then false else guiIsFullscreenVideo win

/-- The parsed outcomes of the three kinds of context request the state
machine can issue during one polling step. -/
structure Env where
  gap : RpcResp (Option (List PlayerEntry))
  win : RpcResp WindowInfo
  winCtl : RpcResp WinCtlInfo
deriving DecidableEq, Repr

/-! ### Actions posted to Kodi -/

inductive Action where
  | exec (name : String)
  | activate (window : String)
deriving DecidableEq, Repr

/-! ### Interaction state (main.cpp lines 57-68) -/

structure PressSt where
  pressedName : Option String
  pressStartMs : Nat
  lastRepeatMs : Nat
  holdActive : Bool
  playPauseHoldDone : Bool
  selectHoldDone : Bool
  lastLeftMs : Nat
  lastRightMs : Nat
deriving DecidableEq, Repr

/-- Initial state: all globals zero / null / false. -/
def initSt : PressSt := ⟨none, 0, 0, false, false, false, 0, 0⟩

/-! ### Handlers (main.cpp lines 303-361) -/

/-- `handleShortPress` (main.cpp lines 303-325).  `now` is `millis()`. -/
def handleShortPress (env : Env) (now : Nat) (st : PressSt) (b : IRButton) :
    List Action × PressSt :=
  match b.shortAction with
  | none => ([], st)
  | some sa =>
    if b.name == "PLAY_PAUSE" then ([], st)
    else if b.name == "SELECT" then ([], st)
    else if b.name == "DOWN" && playerIsForeground env.gap env.win then
      ([Action.exec "osd"], st)
    else if b.name == "RIGHT" || b.name == "LEFT" then
      let isRight := b.name == "RIGHT"
      if 0 ≤ getActivePlayerId env.gap then
        let dbl := if isRight then wsub32 now st.lastRightMs ≤ DOUBLECLICK_MS
                   else wsub32 now st.lastLeftMs ≤ DOUBLECLICK_MS
        let st1 := if isRight then { st with lastRightMs := now }
                   else { st with lastLeftMs := now }
        if dbl then
          if isRight then ([Action.exec "stepforward"], st1)
          else ([Action.exec "stepback"], st1)
        else ([Action.exec sa], st1)
      else ([Action.exec sa], st)
    else ([Action.exec sa], st)

/-- `handleHoldRepeat` (main.cpp lines 327-343). -/
def handleHoldRepeat (now : Nat) (st : PressSt) : List Action × PressSt :=
  match st.pressedName with
  | none => ([], st)
  | some nm =>
    if nm == "PLAY_PAUSE" then ([], st)
    else if nm == "SELECT" then ([], st)
    else
      match kButtons.find? (fun btn => btn.name == nm) with
      | none => ([], st)
      | some b =>
        if !b.holdRepeat then ([], st)
        else if REPEAT_RATE_MS ≤ wsub32 now st.lastRepeatMs then
          ([Action.exec (b.shortAction.getD "")], { st with lastRepeatMs := now })
        else ([], st)

/-- `handleRelease` (main.cpp lines 345-361). -/
def handleRelease (env : Env) (st : PressSt) : List Action × PressSt :=
  let a1 : List Action :=
    if st.pressedName == some "PLAY_PAUSE" && !st.holdActive && !st.playPauseHoldDone
    then [Action.exec "playpause"] else []
  let a2 : List Action :=
    if st.pressedName == some "SELECT" && !st.holdActive && !st.selectHoldDone
    then (if isPureFullscreenPlayback env.gap env.winCtl
          then [Action.exec "playpause"] else [Action.exec "select"])
    else []
  (a1 ++ a2,
   { st with
     pressedName := none,
     holdActive := false,
     playPauseHoldDone := false,
     selectHoldDone := false })

/-! ### The polling loop (main.cpp lines 385-446), split into its phases -/

/-- Frame-processing phase (main.cpp lines 391-413), run when a captured
frame is ready: decode; on a known button run the short press and register
the new press, on an unknown code treat it as a release. -/
def loopFrame (env : Env) (now : Nat) (st : PressSt) (samples : List Nat) :
    List Action × PressSt :=
  let v := decodeNEC samples
  if v ≠ 0 then
    let addr := (v >>> 16) &&& 0xFF
    let cmd := (v >>> 8) &&& 0xFF
    match lookupButton addr cmd with
    | some b =>
      let p := handleShortPress env now st b
      (p.1, { p.2 with
              pressedName := some b.name,
              pressStartMs := now,
              lastRepeatMs := now,
              holdActive := false,
              playPauseHoldDone := false,
              selectHoldDone := false })
    | none => handleRelease env st
  else ([], st)

/-- Hold-transition phase (main.cpp lines 415-431). -/
def holdTick (env : Env) (now : Nat) (st : PressSt) : List Action × PressSt :=
  match st.pressedName with
  | none => ([], st)
  | some nm =>
    if st.holdActive then ([], st)
    else if wsub32 now st.pressStartMs < HOLD_DELAY_MS then ([], st)
    else
      let st1 := { st with holdActive := true, lastRepeatMs := now }
      if nm == "PLAY_PAUSE" then
        ([Action.activate "shutdownmenu"], { st1 with playPauseHoldDone := true })
      else if nm == "SELECT" then
        if playerIsForeground env.gap env.win then ([], st1)
        else ([Action.exec "contextmenu"], { st1 with selectHoldDone := true })
      else ([], st1)

/-- One full polling step (main.cpp lines 391-443): frame phase, hold
transition, hold repeat, then the inferred-release timeout.  `nowMs` is
`millis()`, `nowUs` is `micros()`, `lastEdgeUs` is `sLastEdgeUs`. -/
def loopStep (env : Env) (samples : List Nat) (frameReady : Bool)
    (nowMs nowUs lastEdgeUs : Nat) (st : PressSt) : List Action × PressSt :=
  let s1 := if frameReady && decide (0 < samples.length)
            then loopFrame env nowMs st samples else ([], st)
  let s2 := holdTick env nowMs s1.2
  let s3 := if s2.2.holdActive then handleHoldRepeat nowMs s2.2 else ([], s2.2)
  let s4 := if s3.2.pressedName.isSome
               && decide (RELEASE_TIMEOUT_MS < wsub32 nowUs lastEdgeUs / 1000)
            then handleRelease env s3.2 else ([], s3.2)
  (s1.1 ++ s2.1 ++ s3.1 ++ s4.1, s4.2)

/-! ### Concrete fixtures used by the claim instances below -/

/-- A captured NEC frame with header mark 9100, header space 4600 and 32
bit-pairs encoding the 32-bit value `v` least-significant bit first: each
pair is a 560 mark followed by a 1690 space for a one bit and a 560 space
for a zero bit. -/
def mkFrame (v : Nat) : List Nat :=
  [9100, 4600] ++ (List.range 32).flatMap
    (fun i => [560, if v.testBit i then 1690 else 560])

/-- The 32-bit value whose address byte is 0x03 and command byte 0x87,
i.e. the MENU code of the button table. -/
def vMenu : Nat := (0x03 <<< 16) ||| (0x87 <<< 8)

/-- Environment in which every context request fails at transport level. -/
def envFail : Env := ⟨.httpFail, .httpFail, .httpFail⟩

/-- Environment of genuine negative answers: no active player, a non
fullscreen window, no focused control. -/
def envNeg : Env :=
  ⟨.ok (some []), .ok ⟨"home", 10000⟩, .ok ⟨"home", 10000, "", ""⟩⟩

/-- Environment with an active video player, the fullscreen-video window,
and a focused control: the player is foreground but playback is not pure
fullscreen. -/
def envFocus : Env :=
  ⟨.ok (some [⟨"video", 1⟩]), .ok ⟨"fullscreenvideo", 12005⟩,
   .ok ⟨"fullscreenvideo", 12005, "button", "OK"⟩⟩

/-- Environment of pure fullscreen playback: active video player,
fullscreen-video window, no focused control. -/
def envPure : Env :=
  ⟨.ok (some [⟨"video", 1⟩]), .ok ⟨"fullscreenvideo", 12005⟩,
   .ok ⟨"fullscreenvideo", 12005, "", ""⟩⟩

/-- State with PLAY_PAUSE freshly pressed (press registered at time 0,
hold not reached, one-shot flags clear). -/
def stPP : PressSt := ⟨some "PLAY_PAUSE", 0, 0, false, false, false, 0, 0⟩

/-- State with SELECT freshly pressed at time 0. -/
def stSel : PressSt := ⟨some "SELECT", 0, 0, false, false, false, 0, 0⟩

/-- State with UP pressed and the hold already active. -/
def stUpHold : PressSt := ⟨some "UP", 0, 0, true, false, false, 0, 0⟩

/-- State with SELECT pressed and the hold already active but the SELECT
hold action never fired (as after a hold with the player foreground). -/
def stSelHeld : PressSt := ⟨some "SELECT", 0, 0, true, false, false, 0, 0⟩

/-- State with a previous RIGHT press remembered at time 900. -/
def stRight : PressSt := ⟨some "RIGHT", 900, 900, false, false, false, 0, 900⟩

/-- The MENU entry of the button table. -/
def bMenu : IRButton := ⟨0x03, 0x87, "MENU", some "back", false⟩

/-- The RIGHT entry of the button table. -/
def bRight : IRButton := ⟨0x06, 0x87, "RIGHT", some "right", true⟩

/-! ### State-machine helper lemmas -/

/-- Once the hold is active, the hold-transition phase does nothing: this
is the guard `gPressedName && !gHoldActive` of main.cpp line 415. -/
theorem holdTick_holdActive (env : Env) (now : Nat) (st : PressSt)
    (h : st.holdActive = true) : holdTick env now st = ([], st) := by
  unfold holdTick
  cases hp : st.pressedName <;> simp [h]

/-- `handleRelease` reads its environment only through the pure-fullscreen
query, so environments agreeing on it are indistinguishable to it. -/
theorem handleRelease_congr (e1 e2 : Env) (st : PressSt)
    (h : isPureFullscreenPlayback e1.gap e1.winCtl
       = isPureFullscreenPlayback e2.gap e2.winCtl) :
    handleRelease e1 st = handleRelease e2 st := by
  unfold handleRelease
  rw [h]

/-- `holdTick` reads its environment only through `playerIsForeground`. -/
theorem holdTick_congr (e1 e2 : Env) (now : Nat) (st : PressSt)
    (h : playerIsForeground e1.gap e1.win = playerIsForeground e2.gap e2.win) :
    holdTick e1 now st = holdTick e2 now st := by
  unfold holdTick
  rw [h]

/-- `handleShortPress` reads its environment only through
`playerIsForeground` and the active-player query. -/
theorem handleShortPress_congr (e1 e2 : Env) (now : Nat) (st : PressSt)
    (b : IRButton)
    (hf : playerIsForeground e1.gap e1.win = playerIsForeground e2.gap e2.win)
    (ha : getActivePlayerId e1.gap = getActivePlayerId e2.gap) :
    handleShortPress e1 now st b = handleShortPress e2 now st b := by
  unfold handleShortPress
  rw [hf, ha]

/-! ### Decoder lemmas -/

/-- Bit-level description of the `for (bit ...)` loop of `decodeNEC`: when
every remaining bit-pair has a valid mark and a space inside the one-band
or the zero-band, and `v` has no bits at positions `bit` and above, the
loop result has, at positions from `bit` on, exactly the bits whose space
matched the one-band, and keeps the bits of `v` below `bit`. -/
theorem necBits_testBit (samples : List Nat) (n : Nat) (hn : 66 ≤ n) :
    ∀ fuel bit v, bit + fuel = 32 →
      (∀ j, bit ≤ j → j < 32 →
        within (samples.getD (2 + 2 * j) 0) NEC_BIT_MARK_US NEC_TOLERANCE_US = true ∧
        (within (samples.getD (3 + 2 * j) 0) NEC_ONE_SPACE_US NEC_TOLERANCE_US = true ∨
         within (samples.getD (3 + 2 * j) 0) NEC_ZERO_SPACE_US NEC_TOLERANCE_US = true)) →
      (∀ k, bit ≤ k → v.testBit k = false) →
      ∀ k, (necBits samples n (2 + 2 * bit) bit v fuel).testBit k
        = if bit ≤ k then
            (decide (k < 32) &&
             within (samples.getD (3 + 2 * k) 0) NEC_ONE_SPACE_US NEC_TOLERANCE_US)
          else v.testBit k := by
  intro fuel
  induction fuel with
  | zero =>
    intro bit v hbit hbits hv k
    have hb32 : bit = 32 := by omega
    subst hb32
    simp only [necBits]
    by_cases hk : (32 : Nat) ≤ k
    · rw [if_pos hk, hv k hk]
      have : ¬ (k < 32) := by omega
      simp [this]
    · rw [if_neg hk]
  | succ fuel ih =>
    intro bit v hbit hbits hv k
    have hb32 : bit < 32 := by omega
    obtain ⟨hmark, hspace⟩ := hbits bit le_rfl hb32
    have hni : ¬ (n - 1 ≤ 2 + 2 * bit) := by omega
    have e1 : 2 + 2 * bit + 1 = 3 + 2 * bit := by omega
    have e2 : 2 + 2 * bit + 2 = 2 + 2 * (bit + 1) := by omega
    have hbits1 : ∀ j, bit + 1 ≤ j → j < 32 →
        within (samples.getD (2 + 2 * j) 0) NEC_BIT_MARK_US NEC_TOLERANCE_US = true ∧
        (within (samples.getD (3 + 2 * j) 0) NEC_ONE_SPACE_US NEC_TOLERANCE_US = true ∨
         within (samples.getD (3 + 2 * j) 0) NEC_ZERO_SPACE_US NEC_TOLERANCE_US = true) :=
      fun j hj hj2 => hbits j (by omega) hj2
    simp only [necBits, if_neg hni, hmark, Bool.not_true, if_neg (by simp : ¬ (false = true))]
    rw [e1]
    by_cases h1 : within (samples.getD (3 + 2 * bit) 0) NEC_ONE_SPACE_US NEC_TOLERANCE_US = true
    · rw [if_pos h1, e2]
      have hv1 : ∀ m, bit + 1 ≤ m → (v ||| 1 <<< bit).testBit m = false := by
        intro m hm
        rw [Nat.testBit_or, hv m (by omega), Nat.one_shiftLeft,
            Nat.testBit_two_pow_of_ne (by omega : bit ≠ m)]
        rfl
      have h := ih (bit + 1) (v ||| 1 <<< bit) (by omega) hbits1 hv1 k
      rw [h]
      by_cases hk1 : bit + 1 ≤ k
      · rw [if_pos hk1, if_pos (by omega : bit ≤ k)]
      · by_cases hk0 : bit ≤ k
        · have hkb : k = bit := by omega
          subst hkb
          rw [if_neg hk1, if_pos le_rfl, Nat.testBit_or, hv k le_rfl,
              Nat.one_shiftLeft, Nat.testBit_two_pow_self, h1]
          simp [hb32]
        · rw [if_neg hk1, if_neg hk0, Nat.testBit_or, Nat.one_shiftLeft,
              Nat.testBit_two_pow_of_ne (by omega : bit ≠ k)]
          simp
    · rw [if_neg h1]
      have hzero : within (samples.getD (3 + 2 * bit) 0)
          NEC_ZERO_SPACE_US NEC_TOLERANCE_US = true := by
        rcases hspace with h | h
        · exact absurd h h1
        · exact h
      rw [if_pos hzero, e2]
      have h := ih (bit + 1) v (by omega) hbits1 (fun m hm => hv m (by omega)) k
      rw [h]
      by_cases hk1 : bit + 1 ≤ k
      · rw [if_pos hk1, if_pos (by omega : bit ≤ k)]
      · by_cases hk0 : bit ≤ k
        · have hkb : k = bit := by omega
          subst hkb
          have h1f : within (samples.getD (3 + 2 * k) 0)
              NEC_ONE_SPACE_US NEC_TOLERANCE_US = false := by
            simpa using h1
          rw [if_neg hk1, if_pos le_rfl, hv k le_rfl, h1f]
          simp
        · rw [if_neg hk1, if_neg hk0]

/-- Bit-level description of `decodeNEC` on a sequence whose header and all
32 bit-pairs are timing-valid: bit `i` of the result is set exactly when
`i < 32` and the i-th space matched the one-space band. -/
theorem decodeNEC_testBit (samples : List Nat)
    (hlen : 66 ≤ samples.length)
    (hm : within (samples.getD 0 0) NEC_HDR_MARK_US NEC_TOLERANCE_US = true)
    (hs : within (samples.getD 1 0) NEC_HDR_SPACE_US NEC_TOLERANCE_US = true)
    (hbits : ∀ j, j < 32 →
      within (samples.getD (2 + 2 * j) 0) NEC_BIT_MARK_US NEC_TOLERANCE_US = true ∧
      (within (samples.getD (3 + 2 * j) 0) NEC_ONE_SPACE_US NEC_TOLERANCE_US = true ∨
       within (samples.getD (3 + 2 * j) 0) NEC_ZERO_SPACE_US NEC_TOLERANCE_US = true)) :
    ∀ i, (decodeNEC samples).testBit i
      = (decide (i < 32) &&
         within (samples.getD (3 + 2 * i) 0) NEC_ONE_SPACE_US NEC_TOLERANCE_US) := by
  intro i
  have hlen34 : ¬ (samples.length < 34) := by omega
  unfold decodeNEC
  rw [if_neg hlen34]
  simp only [hm, hs, Bool.not_true, if_neg (by simp : ¬ (false = true))]
  have h := necBits_testBit samples samples.length hlen 32 0 0 rfl
    (fun j _ hj2 => hbits j hj2) (fun k _ => Nat.zero_testBit k) i
  simpa using h

/-! ### Claim C2 -/

/-- C2: for every pulse sequence whose first two samples match the header
mark and header space within tolerance and which then contains 32 valid
bit-pairs (a mark within tolerance of the bit-mark duration followed by a
space within tolerance of the zero-space or the one-space duration),
`decodeNEC` returns exactly the 32-bit value whose bit `i` is set iff the
i-th space matched the one-space duration, least-significant bit first. -/
theorem claimC2_thm (samples : List Nat)
    (hlen : 66 ≤ samples.length)
    (hm : within (samples.getD 0 0) NEC_HDR_MARK_US NEC_TOLERANCE_US = true)
    (hs : within (samples.getD 1 0) NEC_HDR_SPACE_US NEC_TOLERANCE_US = true)
    (hbits : ∀ j, j < 32 →
      within (samples.getD (2 + 2 * j) 0) NEC_BIT_MARK_US NEC_TOLERANCE_US = true ∧
      (within (samples.getD (3 + 2 * j) 0) NEC_ONE_SPACE_US NEC_TOLERANCE_US = true ∨
       within (samples.getD (3 + 2 * j) 0) NEC_ZERO_SPACE_US NEC_TOLERANCE_US = true)) :
    ∀ i, (decodeNEC samples).testBit i
      = (decide (i < 32) &&
         within (samples.getD (3 + 2 * i) 0) NEC_ONE_SPACE_US NEC_TOLERANCE_US) :=
  decodeNEC_testBit samples hlen hm hs hbits

/-- C2 witness: the concrete frame of the claim (header mark 9100, header
space 4600, 32 bit-pairs encoding address 0x03 and command 0x87) decodes so
that the polling loop extracts address byte 0x03 and command byte 0x87. -/
theorem claimC2_witness :
    (decodeNEC (mkFrame vMenu)).testBit 15 = true ∧
    ((decodeNEC (mkFrame vMenu)) >>> 16) &&& 0xFF = 0x03 ∧
    ((decodeNEC (mkFrame vMenu)) >>> 8) &&& 0xFF = 0x87 := by
  refine ⟨?_, by decide, by decide⟩
  have h := claimC2_thm (mkFrame vMenu) (by decide) (by decide) (by decide)
    (by decide) 15
  rw [h]
  decide

/-! ### Claim C9 -/

/-- C9: for every captured sample sequence shorter than 34 entries,
`decodeNEC` returns the no-frame result 0, regardless of sample values. -/
theorem claimC9_thm (samples : List Nat) (h : samples.length < 34) :
    decodeNEC samples = 0 := by
  unfold decodeNEC
  rw [if_pos h]

/-- C9 witness: the empty capture decodes to no frame. -/
theorem claimC9_witness : ([] : List Nat).length < 34 ∧ decodeNEC [] = 0 :=
  ⟨by decide, claimC9_thm [] (by decide)⟩

/-! ### Claim C10 -/

/-- C10: a timing-valid frame all of whose 32 spaces match the zero-space
band encodes the 32-bit value 0, `decodeNEC` returns 0 for it exactly as
for a failed decode, and the frame-processing phase of the polling loop
consequently performs no button lookup, no press registration and no
unknown-code release: the state is returned unchanged with no action. -/
theorem claimC10_thm (samples : List Nat) (env : Env) (now : Nat) (st : PressSt)
    (hlen : 66 ≤ samples.length)
    (hm : within (samples.getD 0 0) NEC_HDR_MARK_US NEC_TOLERANCE_US = true)
    (hs : within (samples.getD 1 0) NEC_HDR_SPACE_US NEC_TOLERANCE_US = true)
    (hmarks : ∀ j, j < 32 →
      within (samples.getD (2 + 2 * j) 0) NEC_BIT_MARK_US NEC_TOLERANCE_US = true)
    (hzeros : ∀ j, j < 32 →
      within (samples.getD (3 + 2 * j) 0) NEC_ZERO_SPACE_US NEC_TOLERANCE_US = true)
    (hones : ∀ j, j < 32 →
      within (samples.getD (3 + 2 * j) 0) NEC_ONE_SPACE_US NEC_TOLERANCE_US = false) :
    decodeNEC samples = 0 ∧ loopFrame env now st samples = ([], st) := by
  have hdec : decodeNEC samples = 0 := by
    apply Nat.eq_of_testBit_eq
    intro i
    rw [Nat.zero_testBit,
        decodeNEC_testBit samples hlen hm hs
          (fun j hj => ⟨hmarks j hj, Or.inr (hzeros j hj)⟩) i]
    by_cases hi : i < 32
    · rw [hones i hi]
      simp
    · simp [hi]
  refine ⟨hdec, ?_⟩
  simp [loopFrame, hdec]

/-- C10 witness: the all-zero-bits frame with valid timing is treated as no
frame by a polling step with a fresh state. -/
theorem claimC10_witness :
    decodeNEC (mkFrame 0) = 0 ∧ loopFrame envFail 5 initSt (mkFrame 0) = ([], initSt) :=
  claimC10_thm (mkFrame 0) envFail 5 initSt (by decide) (by decide) (by decide)
    (by decide) (by decide) (by decide)

/-! ### Claim C1 -/

/-- C1 counterexample: with PLAY_PAUSE logically pressed, hold not active
and its one-shot flag clear, `handleRelease` would fire the outstanding
playpause release action; yet when a newly decoded frame resolves to the
known MENU button, the frame-processing phase fires only the MENU short
action and registers the MENU press — the outstanding release is never
processed, contradicting the claim. -/
theorem claimC1_cex :
    stPP.pressedName = some "PLAY_PAUSE" ∧
    stPP.holdActive = false ∧ stPP.playPauseHoldDone = false ∧
    (handleRelease envFail stPP).1 = [Action.exec "playpause"] ∧
    (loopFrame envFail 1000 stPP (mkFrame vMenu)).1 = [Action.exec "back"] ∧
    (loopFrame envFail 1000 stPP (mkFrame vMenu)).2.pressedName = some "MENU" ∧
    Action.exec "playpause" ∉ (loopFrame envFail 1000 stPP (mkFrame vMenu)).1 := by
  decide

/-- C1 (amended): the press state holds a single optional pressed identity,
so at most one button is logically pressed at any instant; but a newly
decoded frame that resolves to a known button while another button is
pressed does NOT first process the outstanding release: the loop runs the
new button's short-press handler and overwrites the pressed state with the
new press (clearing hold and one-shot flags), firing no release action of
the previously pressed button. -/
theorem claimC1_thm (env : Env) (now : Nat) (st : PressSt) (samples : List Nat)
    (b : IRButton)
    (hv : decodeNEC samples ≠ 0)
    (hb : lookupButton ((decodeNEC samples >>> 16) &&& 0xFF)
          ((decodeNEC samples >>> 8) &&& 0xFF) = some b) :
    loopFrame env now st samples
      = ((handleShortPress env now st b).1,
         { (handleShortPress env now st b).2 with
           pressedName := some b.name,
           pressStartMs := now,
           lastRepeatMs := now,
           holdActive := false,
           playPauseHoldDone := false,
           selectHoldDone := false }) := by
  simp only [loopFrame, hv, if_pos, ne_eq, not_false_eq_true, if_true, hb]

/-- C1 witness: the amended overwrite behavior at the concrete MENU frame
arriving while PLAY_PAUSE is pressed. -/
theorem claimC1_witness :
    loopFrame envFail 1000 stPP (mkFrame vMenu)
      = ((handleShortPress envFail 1000 stPP bMenu).1,
         { (handleShortPress envFail 1000 stPP bMenu).2 with
           pressedName := some bMenu.name,
           pressStartMs := 1000,
           lastRepeatMs := 1000,
           holdActive := false,
           playPauseHoldDone := false,
           selectHoldDone := false }) :=
  claimC1_thm envFail 1000 stPP (mkFrame vMenu) bMenu (by decide) (by decide)

/-! ### Claim C3 -/

/-- C3 counterexample: a player is active, the fullscreen-video window is
active and a control holds focus, so the system is NOT in pure fullscreen
playback; the claim then demands the SELECT hold action fire once when the
hold delay elapses, yet the hold transition fires nothing (the code tests
`playerIsForeground`, which ignores control focus), and no later tick of
the same press can fire it either. -/
theorem claimC3_cex :
    isPureFullscreenPlayback envFocus.gap envFocus.winCtl = false ∧
    stSel.pressedName = some "SELECT" ∧ stSel.holdActive = false ∧
    HOLD_DELAY_MS ≤ wsub32 1000 stSel.pressStartMs ∧
    (holdTick envFocus 1000 stSel).1 = [] ∧
    (holdTick envFocus 1000 stSel).2.holdActive = true ∧
    (holdTick envFocus 2000 (holdTick envFocus 1000 stSel).2).1 = [] := by
  decide

/-- C3 (amended): during a SELECT press, when the hold delay elapses the
context-menu hold action fires exactly once iff the player is NOT
foreground (an active player with the fullscreen-video window); the
focused-control part of pure fullscreen playback is not consulted.  The
one-shot flag is marked exactly when the action fires, and once the hold is
active no later tick of the press fires a hold action. -/
theorem claimC3_thm (env : Env) (now : Nat) (st : PressSt)
    (h1 : st.pressedName = some "SELECT")
    (h2 : st.holdActive = false)
    (h3 : HOLD_DELAY_MS ≤ wsub32 now st.pressStartMs)
    (h4 : st.selectHoldDone = false) :
    (holdTick env now st).1
      = (if playerIsForeground env.gap env.win then []
         else [Action.exec "contextmenu"]) ∧
    (holdTick env now st).2.holdActive = true ∧
    (holdTick env now st).2.selectHoldDone
      = !playerIsForeground env.gap env.win ∧
    ∀ env2 now2, (holdTick env2 now2 (holdTick env now st).2).1 = [] := by
  have hlt : ¬ (wsub32 now st.pressStartMs < HOLD_DELAY_MS) := by omega
  have hmain : (holdTick env now st).1
      = (if playerIsForeground env.gap env.win then []
         else [Action.exec "contextmenu"]) ∧
      (holdTick env now st).2.holdActive = true ∧
      (holdTick env now st).2.selectHoldDone
        = !playerIsForeground env.gap env.win := by
    unfold holdTick
    rw [h1]
    by_cases hf : playerIsForeground env.gap env.win = true <;>
      simp [h2, hlt, hf, h4]
  refine ⟨hmain.1, hmain.2.1, hmain.2.2, ?_⟩
  intro env2 now2
  rw [holdTick_holdActive env2 now2 _ hmain.2.1]

/-- C3 witness: with no active player the SELECT hold fires the context
menu once when the hold delay elapses. -/
theorem claimC3_witness :
    (holdTick envNeg 1000 stSel).1
      = (if playerIsForeground envNeg.gap envNeg.win then []
         else [Action.exec "contextmenu"]) ∧
    (holdTick envNeg 1000 stSel).2.holdActive = true :=
  ⟨(claimC3_thm envNeg 1000 stSel rfl rfl (by decide) rfl).1,
   (claimC3_thm envNeg 1000 stSel rfl rfl (by decide) rfl).2.1⟩

/-! ### Claim C4 -/

/-- C4 counterexample: press SELECT with a foreground player and a focused
control, let the hold delay elapse — the hold action does not fire and the
one-shot flag stays clear — then release during pure fullscreen playback.
The claim demands the deferred play/pause action; the code fires nothing
because `gHoldActive` is set even though the hold action never fired. -/
theorem claimC4_cex :
    (holdTick envFocus 1000 stSel).1 = [] ∧
    (holdTick envFocus 1000 stSel).2.selectHoldDone = false ∧
    (holdTick envFocus 1000 stSel).2.holdActive = true ∧
    isPureFullscreenPlayback envPure.gap envPure.winCtl = true ∧
    (handleRelease envPure (holdTick envFocus 1000 stSel).2).1 = [] := by
  decide

/-- C4 (amended): when a SELECT press is released, the deferred action
fires exactly when the hold never activated during the press (hold-active
flag and one-shot flag both clear): play/pause if the system is currently
in pure fullscreen playback, the plain select action otherwise.  If the
hold activated — whether or not the hold action fired — the release fires
nothing for SELECT. -/
theorem claimC4_thm (env : Env) (st : PressSt)
    (h1 : st.pressedName = some "SELECT") :
    (st.holdActive = false → st.selectHoldDone = false →
      (handleRelease env st).1
        = (if isPureFullscreenPlayback env.gap env.winCtl
           then [Action.exec "playpause"] else [Action.exec "select"])) ∧
    (st.holdActive = true → (handleRelease env st).1 = []) ∧
    (handleRelease env st).2.pressedName = none := by
  refine ⟨?_, ?_, ?_⟩
  · intro hha hsd
    unfold handleRelease
    by_cases hp : isPureFullscreenPlayback env.gap env.winCtl = true <;>
      simp [h1, hha, hsd, hp]
  · intro hha
    unfold handleRelease
    simp [h1, hha]
  · unfold handleRelease
    simp

/-- C4 witness: a short SELECT release during pure fullscreen playback. -/
theorem claimC4_witness :
    (handleRelease envPure stSel).1
      = (if isPureFullscreenPlayback envPure.gap envPure.winCtl
         then [Action.exec "playpause"] else [Action.exec "select"]) ∧
    (handleRelease envPure stSel).2.pressedName = none :=
  ⟨(claimC4_thm envPure stSel rfl).1 rfl rfl, (claimC4_thm envPure stSel rfl).2.2⟩

/-! ### Claim C5 -/

/-- C5 counterexample: a SELECT press with a foreground player and focused
control lasts past the hold delay, yet zero hold actions fire (not exactly
one) and no one-shot hold flag is marked — the transition to hold-active
still happens and blocks any later firing within the press. -/
theorem claimC5_cex :
    stSel.holdActive = false ∧
    HOLD_DELAY_MS ≤ wsub32 300 stSel.pressStartMs ∧
    (holdTick envFocus 300 stSel).1 = [] ∧
    (holdTick envFocus 300 stSel).2.holdActive = true ∧
    (holdTick envFocus 300 stSel).2.playPauseHoldDone = false ∧
    (holdTick envFocus 300 stSel).2.selectHoldDone = false ∧
    (holdTick envFocus 600 (holdTick envFocus 300 stSel).2).1 = [] := by
  decide

/-- C5 (amended): for every press the hold action fires at most once.  When
elapsed time since press start first reaches the hold delay the machine
transitions Pressed to HoldActive; on that transition PLAY_PAUSE fires its
hold action and marks its one-shot flag, SELECT fires its hold action and
marks its flag only when the player is not foreground, and every other
button fires no hold action and marks no flag.  What prevents a second
hold action within the same press is the hold-active flag: once it is set
the hold-transition phase does nothing. -/
theorem claimC5_thm (env : Env) (now : Nat) (st : PressSt) (nm : String)
    (h1 : st.pressedName = some nm) :
    (st.holdActive = true → holdTick env now st = ([], st)) ∧
    (st.holdActive = false → HOLD_DELAY_MS ≤ wsub32 now st.pressStartMs →
      (holdTick env now st).2.holdActive = true ∧
      (holdTick env now st).1
        = (if nm = "PLAY_PAUSE" then [Action.activate "shutdownmenu"]
           else if nm = "SELECT" then
             (if playerIsForeground env.gap env.win then []
              else [Action.exec "contextmenu"])
           else []) ∧
      (holdTick env now st).2.playPauseHoldDone
        = (if nm = "PLAY_PAUSE" then true else st.playPauseHoldDone) ∧
      (holdTick env now st).2.selectHoldDone
        = (if nm = "SELECT" ∧ playerIsForeground env.gap env.win = false
           then true else st.selectHoldDone)) := by
  refine ⟨fun h => holdTick_holdActive env now st h, ?_⟩
  intro h2 h3
  have hlt : ¬ (wsub32 now st.pressStartMs < HOLD_DELAY_MS) := by omega
  unfold holdTick
  rw [h1]
  by_cases hpp : nm = "PLAY_PAUSE"
  · simp [h2, hlt, hpp]
  · by_cases hsel : nm = "SELECT"
    · by_cases hf : playerIsForeground env.gap env.win = true <;>
        simp [h2, hlt, hpp, hsel, hf]
    · simp [h2, hlt, hpp, hsel]

/-- C5 witness: a PLAY_PAUSE press lasting past the hold delay fires the
power-menu hold action exactly at the transition and marks its flag. -/
theorem claimC5_witness :
    (holdTick envFail 500 stPP).2.holdActive = true ∧
    (holdTick envFail 500 stPP).1 = [Action.activate "shutdownmenu"] ∧
    (holdTick envFail 500 stPP).2.playPauseHoldDone = true := by
  have h := (claimC5_thm envFail 500 stPP "PLAY_PAUSE" rfl).2 rfl (by decide)
  refine ⟨h.1, ?_, ?_⟩
  · rw [h.2.1]; decide
  · rw [h.2.2.1]; decide

/-! ### Claim C6 -/

/-- C6: for every pressed button, the repeat phase re-fires the button's
short action exactly when the button is hold-repeat-enabled (and not one of
the PLAY_PAUSE/SELECT early returns, which are in any case not
hold-repeat-enabled in the table) and at least one repeat-rate interval has
elapsed since the last repeat, then restamps the last-repeat time; in every
other case — in particular for every button without hold-repeat, including
PLAY_PAUSE and SELECT — it fires nothing and leaves the state untouched.
The phase never changes the hold-active flag or the pressed identity, so
buttons without hold-repeat stay in the hold state but never re-fire. -/
theorem claimC6_thm (now : Nat) (st : PressSt) (nm : String) (b : IRButton)
    (h1 : st.pressedName = some nm)
    (h4 : kButtons.find? (fun btn => btn.name == nm) = some b) :
    handleHoldRepeat now st
      = (if b.holdRepeat = true ∧ nm ≠ "PLAY_PAUSE" ∧ nm ≠ "SELECT" then
           (if REPEAT_RATE_MS ≤ wsub32 now st.lastRepeatMs then
              ([Action.exec (b.shortAction.getD "")],
               { st with lastRepeatMs := now })
            else ([], st))
         else ([], st)) ∧
    (handleHoldRepeat now st).2.holdActive = st.holdActive ∧
    (handleHoldRepeat now st).2.pressedName = st.pressedName := by
  have hmain : handleHoldRepeat now st
      = (if b.holdRepeat = true ∧ nm ≠ "PLAY_PAUSE" ∧ nm ≠ "SELECT" then
           (if REPEAT_RATE_MS ≤ wsub32 now st.lastRepeatMs then
              ([Action.exec (b.shortAction.getD "")],
               { st with lastRepeatMs := now })
            else ([], st))
         else ([], st)) := by
    unfold handleHoldRepeat
    rw [h1]
    by_cases hpp : nm = "PLAY_PAUSE"
    · simp [hpp]
    · by_cases hsel : nm = "SELECT"
      · simp [hpp, hsel]
      · by_cases hr : b.holdRepeat = true
        · by_cases hel : REPEAT_RATE_MS ≤ wsub32 now st.lastRepeatMs <;>
            simp [hpp, hsel, h4, hr, hel]
        · simp [hpp, hsel, h4, hr]
  refine ⟨hmain, ?_, ?_⟩ <;> rw [hmain] <;> split_ifs <;> simp

/-- C6 witness: UP held with the hold active re-fires its short action when
a full repeat interval has elapsed, restamping the repeat clock; SELECT,
which has no hold-repeat, stays held but never re-fires. -/
theorem claimC6_witness :
    handleHoldRepeat 200 stUpHold
      = ([Action.exec "up"], { stUpHold with lastRepeatMs := 200 }) ∧
    (handleHoldRepeat 200 stUpHold).2.holdActive = stUpHold.holdActive ∧
    handleHoldRepeat 500 stSelHeld = ([], stSelHeld) := by
  have h := claimC6_thm 200 stUpHold "UP" ⟨0x0A, 0x87, "UP", some "up", true⟩
    rfl (by decide)
  have hsel := claimC6_thm 500 stSelHeld "SELECT"
    ⟨0x5C, 0x87, "SELECT", some "select", false⟩ rfl (by decide)
  exact ⟨by rw [h.1]; decide, h.2.1, by rw [hsel.1]; decide⟩

/-! ### Claim C7 -/

/-- C7: for a LEFT or RIGHT press with a player active, the short-press
handler fires step-forward / step-back instead of the plain directional
action exactly when the press arrives within the double-click window of the
previous same-direction press, and in either case the press time is
remembered for the next same-direction comparison. -/
theorem claimC7_thm (env : Env) (now : Nat) (st : PressSt) (b : IRButton)
    (sa : String)
    (h1 : b.name = "RIGHT" ∨ b.name = "LEFT")
    (h2 : b.shortAction = some sa)
    (h3 : 0 ≤ getActivePlayerId env.gap) :
    (handleShortPress env now st b).1
      = (if b.name = "RIGHT" then
           (if wsub32 now st.lastRightMs ≤ DOUBLECLICK_MS
            then [Action.exec "stepforward"] else [Action.exec sa])
         else
           (if wsub32 now st.lastLeftMs ≤ DOUBLECLICK_MS
            then [Action.exec "stepback"] else [Action.exec sa])) ∧
    (handleShortPress env now st b).2
      = (if b.name = "RIGHT" then { st with lastRightMs := now }
         else { st with lastLeftMs := now }) := by
  unfold handleShortPress
  rcases h1 with h | h
  · by_cases hd : wsub32 now st.lastRightMs ≤ DOUBLECLICK_MS <;>
      simp [h, h2, h3, hd]
  · by_cases hd : wsub32 now st.lastLeftMs ≤ DOUBLECLICK_MS <;>
      simp [h, h2, h3, hd]

/-- C7 witness: a second RIGHT press 100 ms after the previous one with a
player active fires step-forward and restamps the right double-click
memory. -/
theorem claimC7_witness :
    (handleShortPress envPure 1000 stRight bRight).1 = [Action.exec "stepforward"] ∧
    (handleShortPress envPure 1000 stRight bRight).2
      = { stRight with lastRightMs := 1000 } := by
  have h := claimC7_thm envPure 1000 stRight bRight "right" (Or.inl rfl) rfl
    (by decide)
  exact ⟨by rw [h.1]; decide, by rw [h.2]; decide⟩

/-! ### Claim C8 -/

/-- C8: every context-query failure — HTTP non-success or timeout
(`httpFail`) and unparsable response (`parseFail`) — maps to the negative
result: -1 for the active-player query and false for the fullscreen and
pure-fullscreen queries, the same values a genuine negative answer yields;
consequently the state-machine handlers behave identically under an
all-failure environment and a genuinely negative environment, and no
failure escapes its call boundary (every query is a total function into a
plain value). -/
theorem claimC8_thm :
    getActivePlayerId .httpFail = -1 ∧
    getActivePlayerId .parseFail = -1 ∧
    getActivePlayerId (.ok none) = -1 ∧
    getActivePlayerId (.ok (some [])) = -1 ∧
    guiIsFullscreenVideo .httpFail = false ∧
    guiIsFullscreenVideo .parseFail = false ∧
    (∀ gap, isPureFullscreenPlayback gap .httpFail = false) ∧
    (∀ gap, isPureFullscreenPlayback gap .parseFail = false) ∧
    playerIsForeground .httpFail .httpFail = false ∧
    (∀ st, handleRelease envFail st = handleRelease envNeg st) ∧
    (∀ now st, holdTick envFail now st = holdTick envNeg now st) ∧
    (∀ now st b, handleShortPress envFail now st b
       = handleShortPress envNeg now st b) := by
  refine ⟨rfl, rfl, rfl, rfl, rfl, rfl, ?_, ?_, rfl, ?_, ?_, ?_⟩
  · intro gap
    unfold isPureFullscreenPlayback
    split <;> rfl
  · intro gap
    unfold isPureFullscreenPlayback
    split <;> rfl
  · intro st
    exact handleRelease_congr envFail envNeg st (by decide)
  · intro now st
    exact holdTick_congr envFail envNeg now st (by decide)
  · intro now st b
    exact handleShortPress_congr envFail envNeg now st b (by decide) (by decide)

end Atv2Kodi
